import Mathlib

/-!
Verification development for the Speed_Matters2 video-processing pipeline
(`variant.py`).  The program is embedded shallowly:

* a decoded frame (a numpy `ndarray` of shape `h × w × c`) is a `Frame`:
  explicit dimensions plus a total sample function into `ℚ` (float64 and
  integer dtypes are idealized as exact rationals);
* the numpy cast to `uint8` (C truncation toward zero followed by reduction
  mod 256) is `npU8`; the saturating cast that a wrap-free pipeline would
  use is `satU8`;
* scalar arithmetic on `uint8` arrays (`img + 30`, `img - 128`, stores of
  float results into a `uint8` array) goes through the cast, exactly as
  numpy value-based promotion does;
* the external library calls (scipy `ndimage` filters, `np.random`,
  transcendental scalar functions) are collected in an `NpLib` record.
  Each field carries exactly the contract the program relies on (the
  filters preserve the array shape); random draws become universally
  quantified data, so theorems hold for every draw;
* the four effect pipelines of `apply_video_effects` are lists of 25
  steps each, translated line by line from `variant.py`;
* `demux_video_once`, `process_all_frames` and `mux_videos` are modelled
  over small environment records describing the behaviour of the
  decode/encode/remux boundaries (PyAV, subprocess, shutil).
-/

namespace SpeedMatters

/-- A dense `h × w × c` sample grid (numpy `ndarray`, 3-D).  `data` is a
total function; only indices below the bounds are meaningful. -/
structure Frame where
  h : ℕ
  w : ℕ
  c : ℕ
  data : ℕ → ℕ → ℕ → ℚ

/-- A 2-D grid (numpy `ndarray` of shape `h × w`), used for per-pixel
masks, edge maps and luminance planes. -/
structure Grid2 where
  h : ℕ
  w : ℕ
  data : ℕ → ℕ → ℚ

/-- Extensional equality of frames: same dimensions and the same sample
at every in-bounds index ("byte-for-byte equal"). -/
def FrameEq (f g : Frame) : Prop :=
  f.h = g.h ∧ f.w = g.w ∧ f.c = g.c ∧
    ∀ i < f.h, ∀ j < f.w, ∀ k < f.c, f.data i j k = g.data i j k

instance (f g : Frame) : Decidable (FrameEq f g) := by
  unfold FrameEq; infer_instance

/-- C truncation toward zero of a rational, as in the numpy float-to-int
casts (`Int.div` truncates toward zero). -/
def npTrunc (x : ℚ) : ℤ := Int.tdiv x.num (x.den : ℤ)

/-- Mathematical floor, as used by numpy `floor_divide` (`//`). -/
def qfloor (x : ℚ) : ℤ := Int.fdiv x.num (x.den : ℤ)

/-- The numpy cast to `uint8`: truncate toward zero, then wrap mod 256.
This is what `astype(np.uint8)` and stores into a `uint8` array do. -/
def npU8 (x : ℚ) : ℚ := ((Int.emod (npTrunc x) 256 : ℤ) : ℚ)

/-- The saturating 8-bit conversion: truncate, then clamp to [0, 255]
instead of wrapping.  A pipeline is free of silent wraparound exactly
when replacing `npU8` by `satU8` does not change its result. -/
def satU8 (x : ℚ) : ℚ := ((max 0 (min 255 (npTrunc x)) : ℤ) : ℚ)

/-- `np.clip(x, lo, hi)`. -/
def clipQ (lo hi x : ℚ) : ℚ := max lo (min hi x)

/-- Index arithmetic of `np.roll` along an axis of length `n`:
`out[j] = in[(j - s) mod n]`. -/
def rollIdx (n : ℕ) (s : ℤ) (j : ℕ) : ℕ := (Int.emod ((j : ℤ) - s) (n : ℤ)).toNat

/-- Pointwise map over all samples (elementwise numpy arithmetic). -/
def fmap (g : ℚ → ℚ) (f : Frame) : Frame :=
  ⟨f.h, f.w, f.c, fun i j k => g (f.data i j k)⟩

/-- Pointwise map that may also read the index (broadcast row/column
patterns, random fields, vignettes). -/
def fmapIdx (g : ℕ → ℕ → ℕ → ℚ → ℚ) (f : Frame) : Frame :=
  ⟨f.h, f.w, f.c, fun i j k => g i j k (f.data i j k)⟩

/-- In-place update of one channel: `img[:, :, t] = g(...)`. -/
def setChan (t : ℕ) (g : ℕ → ℕ → ℚ → ℚ) (f : Frame) : Frame :=
  ⟨f.h, f.w, f.c, fun i j k => if k = t then g i j (f.data i j t) else f.data i j k⟩

/-- `np.roll` of a single channel along axis 1 (columns). -/
def chanRollCols (t : ℕ) (s : ℤ) (f : Frame) : Frame :=
  ⟨f.h, f.w, f.c, fun i j k => if k = t then f.data i (rollIdx f.w s j) k else f.data i j k⟩

/-- `np.roll` of a single channel along axis 0 (rows). -/
def chanRollRows (t : ℕ) (s : ℤ) (f : Frame) : Frame :=
  ⟨f.h, f.w, f.c, fun i j k => if k = t then f.data (rollIdx f.h s i) j k else f.data i j k⟩

/-- `np.roll(img, s, axis=1)` of all channels. -/
def rollCols (s : ℤ) (f : Frame) : Frame :=
  ⟨f.h, f.w, f.c, fun i j k => f.data i (rollIdx f.w s j) k⟩

/-- `np.mean(img, axis=2)`: the per-pixel mean over the channel axis. -/
def npMean2 (f : Frame) : Grid2 :=
  ⟨f.h, f.w, fun i j => (∑ k ∈ Finset.range f.c, f.data i j k) / (f.c : ℚ)⟩

/-- Variant 1 step 15, pixelation: `img[::2, ::2]` repeated twice along
both spatial axes and cropped back with `[:h, :w]`. -/
def pixelate (f : Frame) : Frame :=
  ⟨min (2 * ((f.h + 1) / 2)) f.h, min (2 * ((f.w + 1) / 2)) f.w, f.c,
    fun i j k => f.data (2 * (i / 2)) (2 * (j / 2)) k⟩

/-- The sepia matrix of variant 0 step 4 (`np.dot(img, sepia.T)` sums the
input channels against row `k` of the matrix). -/
def sepiaM : ℕ → ℕ → ℚ
  | 0, 0 => 393/1000 | 0, 1 => 769/1000 | 0, 2 => 189/1000
  | 1, 0 => 349/1000 | 1, 1 => 686/1000 | 1, 2 => 168/1000
  | 2, 0 => 272/1000 | 2, 1 => 534/1000 | 2, 2 => 131/1000
  | _, _ => 0

/-- Model of the external numpy/scipy surface used by
`apply_video_effects`.  The filter fields carry the single contract the
program relies on: they return an array of the same shape.  The random
fields (`normal`, `randMask`, `randintC`, `rand3`) stand for one draw of
the unseeded random source; theorems quantify over the whole record, so
they hold for every draw.  `sinq`, `sqrtq`, `fpow`, `expq` idealize the
float transcendental functions. -/
structure NpLib where
  gaussian : ℚ → Frame → Frame
  medianF : ℕ → Frame → Frame
  uniformF : ℕ → Frame → Frame
  sobel : Grid2 → Grid2
  percentile : Grid2 → ℚ → ℚ
  normal : ℚ → ℚ → ℕ → ℕ → ℕ → ℚ
  randMask : ℚ → ℕ → ℕ → Bool
  randintC : ℚ → ℚ → ℕ → ℕ → ℕ → ℚ
  rand3 : ℕ → ℕ → ℕ → ℚ
  sinq : ℚ → ℚ
  sqrtq : ℚ → ℚ
  fpow : ℚ → ℚ → ℚ
  expq : ℚ → ℚ
  gaussian_h : ∀ s f, (gaussian s f).h = f.h
  gaussian_w : ∀ s f, (gaussian s f).w = f.w
  gaussian_c : ∀ s f, (gaussian s f).c = f.c
  median_h : ∀ s f, (medianF s f).h = f.h
  median_w : ∀ s f, (medianF s f).w = f.w
  median_c : ∀ s f, (medianF s f).c = f.c
  uniform_h : ∀ s f, (uniformF s f).h = f.h
  uniform_w : ∀ s f, (uniformF s f).w = f.w
  uniform_c : ∀ s f, (uniformF s f).c = f.c

/-- A trivial instantiation of the library record (identity filters,
all-zero draws), used to supply concrete inputs to theorems. -/
def zeroLib : NpLib where
  gaussian := fun _ f => f
  medianF := fun _ f => f
  uniformF := fun _ f => f
  sobel := fun g => g
  percentile := fun _ _ => 0
  normal := fun _ _ _ _ _ => 0
  randMask := fun _ _ _ => false
  randintC := fun lo _ _ _ _ => lo
  rand3 := fun _ _ _ => 0
  sinq := fun _ => 0
  sqrtq := fun _ => 0
  fpow := fun _ _ => 0
  expq := fun _ => 0
  gaussian_h := fun _ _ => rfl
  gaussian_w := fun _ _ => rfl
  gaussian_c := fun _ _ => rfl
  median_h := fun _ _ => rfl
  median_w := fun _ _ => rfl
  median_c := fun _ _ => rfl
  uniform_h := fun _ _ => rfl
  uniform_w := fun _ _ => rfl
  uniform_c := fun _ _ => rfl

/-- The ratio `distance / max_distance` of the radial patterns
(`variant.py` lines 90-94, 104-110, 210-216, 304-310, 412-418), with the
grid centre at `(h // 2, w // 2)`.  Division by zero (a degenerate
max-distance) is the rational convention `x / 0 = 0`. -/
def distRatio (lib : NpLib) (h w i j : ℕ) : ℚ :=
  lib.sqrtq (((j : ℚ) - ((w / 2 : ℕ) : ℚ)) ^ 2 + ((i : ℚ) - ((h / 2 : ℕ) : ℚ)) ^ 2) /
    lib.sqrtq (((w / 2 : ℕ) : ℚ) ^ 2 + ((h / 2 : ℕ) : ℚ) ^ 2)

/-- The radial vignette factor: `np.clip(1 - (distance/max_distance) ** ex, lo, 1)`. -/
def vignetteAt (lib : NpLib) (ex lo : ℚ) (h w i j : ℕ) : ℚ :=
  clipQ lo 1 (1 - lib.fpow (distRatio lib h w i j) ex)

/-- Variant 1 step 1 (line 116): `img[:, :, 2] = np.clip(img[:, :, 2] * 1.4, 0, 255)`.
The store into the `uint8` input array casts through `C`. -/
def v1s1 (C : ℚ → ℚ) : Frame → Frame :=
  setChan 2 (fun _ _ v => C (clipQ 0 255 (v * (14/10))))

/-- Variant 1 step 2 (line 119): `img[:, :, 0] = img[:, :, 0] * 0.6`. -/
def v1s2 (C : ℚ → ℚ) : Frame → Frame :=
  setChan 0 (fun _ _ v => C (v * (6/10)))

/-- Variant 1 step 3 (line 122): `img[:, :, 1] = img[:, :, 1] * 0.8`. -/
def v1s3 (C : ℚ → ℚ) : Frame → Frame :=
  setChan 1 (fun _ _ v => C (v * (8/10)))

/-- Variant 2 step 1 (line 223): `img[:, :, 1] = np.clip(img[:, :, 1] * 1.5, 0, 255)`. -/
def v2s1 (C : ℚ → ℚ) : Frame → Frame :=
  setChan 1 (fun _ _ v => C (clipQ 0 255 (v * (15/10))))

/-- Variant 2 step 2 (line 226): `img[:, :, 0] = img[:, :, 0] * 0.7`. -/
def v2s2 (C : ℚ → ℚ) : Frame → Frame :=
  setChan 0 (fun _ _ v => C (v * (7/10)))

/-- Variant 2 step 3 (line 229): `img[:, :, 2] = img[:, :, 2] * 0.7`. -/
def v2s3 (C : ℚ → ℚ) : Frame → Frame :=
  setChan 2 (fun _ _ v => C (v * (7/10)))

/-- Variant 3 step 1 (line 317): `img[:, :, 0] = np.clip(img[:, :, 0] * 1.6, 0, 255)`. -/
def v3s1 (C : ℚ → ℚ) : Frame → Frame :=
  setChan 0 (fun _ _ v => C (clipQ 0 255 (v * (16/10))))

/-- Variant 3 step 2 (line 320): `img[:, :, 1] = img[:, :, 1] * 0.6`. -/
def v3s2 (C : ℚ → ℚ) : Frame → Frame :=
  setChan 1 (fun _ _ v => C (v * (6/10)))

/-- Variant 3 step 3 (line 323): `img[:, :, 2] = img[:, :, 2] * 0.4`. -/
def v3s3 (C : ℚ → ℚ) : Frame → Frame :=
  setChan 2 (fun _ _ v => C (v * (4/10)))

/-- Variant 0 step 4 (lines 23-25): `np.dot(img, sepia.T)` over the three
input channels, clipped and cast; the result always has three channels
(numpy rejects inputs whose channel axis is not of length 3). -/
def sepia3 (C : ℚ → ℚ) (f : Frame) : Frame :=
  ⟨f.h, f.w, 3, fun i j k =>
    C (clipQ 0 255 (f.data i j 0 * sepiaM k 0 + f.data i j 1 * sepiaM k 1 +
      f.data i j 2 * sepiaM k 2))⟩

/-- Variant 0, "Classic Film Processing" (`variant.py` lines 11-111),
one list entry per numbered transformation.  `C` is the 8-bit cast
applied wherever numpy stores into or computes in a `uint8` array;
steps 1-16 run on `uint8` data (note the wrapping scalar arithmetic of
steps 2, 3 and 15), step 17 rebinds to a float array, after which no
cast occurs until the final `astype`. -/
def v0Steps (C : ℚ → ℚ) (lib : NpLib) : List (Frame → Frame) :=
  [ -- 1 (line 14): img = 255 - img  (uint8, fresh array)
    fun f => fmap (fun v => C (255 - v)) f,
    -- 2 (line 17): np.clip(img + 30, 0, 255).astype(uint8); img + 30 wraps in uint8
    fun f => fmap (fun v => C (clipQ 0 255 (C (v + 30)))) f,
    -- 3 (line 20): np.clip((img - 128) * 1.2 + 128, 0, 255).astype(uint8); img - 128 wraps
    fun f => fmap (fun v => C (clipQ 0 255 ((C (v - 128)) * (12/10) + 128))) f,
    -- 4 (lines 23-25): sepia np.dot(img, sepia.T), clip, astype
    fun f => sepia3 C f,
    -- 5 (lines 28-29): np.power(img / 255.0, 0.8) * 255, astype
    fun f => fmap (fun v => C (lib.fpow (v / 255) (8/10) * 255)) f,
    -- 6 (line 32): img[:, :, 0] = np.clip(img[:, :, 0] * 1.1, 0, 255)
    fun f => setChan 0 (fun _ _ v => C (clipQ 0 255 (v * (11/10)))) f,
    -- 7 (lines 35-37): hsv scratch array is dead code; np.clip(img * 1.15, 0, 255).astype
    fun f => fmap (fun v => C (clipQ 0 255 (v * (115/100)))) f,
    -- 8 (lines 40-41): np.clip(img + normal(0, 5, shape), 0, 255).astype
    fun f => fmapIdx (fun i j k v => C (clipQ 0 255 (v + lib.normal 0 5 i j k))) f,
    -- 9 (line 44): np.clip(img * 1.1 - 10, 0, 255).astype
    fun f => fmap (fun v => C (clipQ 0 255 (v * (11/10) - 10))) f,
    -- 10 (lines 47-48): channel 0 * 1.05, channel 2 * 0.95, clipped, in place
    fun f => setChan 2 (fun _ _ v => C (clipQ 0 255 (v * (95/100))))
      (setChan 0 (fun _ _ v => C (clipQ 0 255 (v * (105/100)))) f),
    -- 11 (lines 51-52): gaussian_filter(img, sigma=0.5) then astype
    fun f => fmap C (lib.gaussian (5/10) f),
    -- 12 (lines 55-56): img[img > 200] = (img[...] * 0.9).astype(uint8)
    fun f => fmap (fun v => if 200 < v then C (v * (9/10)) else v) f,
    -- 13 (lines 59-60): img[img < 50] = (img[...] * 1.2).astype(uint8)
    fun f => fmap (fun v => if v < 50 then C (v * (12/10)) else v) f,
    -- 14 (lines 63-64): channel 0 * 1.1, channel 1 * 1.05, clipped, in place
    fun f => setChan 1 (fun _ _ v => C (clipQ 0 255 (v * (105/100))))
      (setChan 0 (fun _ _ v => C (clipQ 0 255 (v * (11/10)))) f),
    -- 15 (lines 67-68): mid-tones (50 < v < 200): clip((v - 128) * 1.1 + 128); v - 128 wraps
    fun f => fmap (fun v => if 50 < v ∧ v < 200 then
      C (clipQ 0 255 ((C (v - 128)) * (11/10) + 128)) else v) f,
    -- 16 (lines 71-72): np.roll of channel 0 by +1 and channel 2 by -1 along axis 1
    fun f => chanRollCols 2 (-1) (chanRollCols 0 1 f),
    -- 17 (line 75): img = img * 0.95 + 20  (rebinds to float, no clip, no cast)
    fun f => fmap (fun v => v * (95/100) + 20) f,
    -- 18 (line 78): img[:, :, 1] = np.clip(img[:, :, 1] * 1.02, 0, 255)  (float store)
    fun f => setChan 1 (fun _ _ v => clipQ 0 255 (v * (102/100))) f,
    -- 19 (line 81): img = np.power(img / 255.0, 0.9) * 255  (float, no clip)
    fun f => fmap (fun v => lib.fpow (v / 255) (9/10) * 255) f,
    -- 20 (line 84): img = np.clip(img * 1.03, 0, 255)
    fun f => fmap (fun v => clipQ 0 255 (v * (103/100))) f,
    -- 21 (line 87): img = np.clip(img * 0.98 + 5, 0, 255)
    fun f => fmap (fun v => clipQ 0 255 (v * (98/100) + 5)) f,
    -- 22 (lines 90-95): np.clip(img / (1 + 0.1 * (distance / max_distance)), 0, 255)
    fun f => fmapIdx (fun i j _ v =>
      clipQ 0 255 (v / (1 + (1/10) * distRatio lib f.h f.w i j))) f,
    -- 23 (line 98): img[:, :, 1] = np.clip(img[:, :, 1] * 0.98, 0, 255)
    fun f => setChan 1 (fun _ _ v => clipQ 0 255 (v * (98/100))) f,
    -- 24 (line 101): img = np.clip(img * 1.01, 0, 255)
    fun f => fmap (fun v => clipQ 0 255 (v * (101/100))) f,
    -- 25 (lines 104-111): img = img * clip(1 - (d/maxd) ** 1.5, 0.3, 1)
    fun f => fmapIdx (fun i j _ v => v * vignetteAt lib (15/10) (3/10) f.h f.w i j) f ]

/-- Variant 1, "Cyberpunk/Neon Style" (`variant.py` lines 113-218).
Steps 1-3 store in place into the `uint8` input array; step 4 rebinds to
a float array (after a wrapping `img - 128` on the `uint8` data), and no
further cast occurs until the final `astype`. -/
def v1Steps (C : ℚ → ℚ) (lib : NpLib) : List (Frame → Frame) :=
  [ v1s1 C,
    v1s2 C,
    v1s3 C,
    -- 4 (line 125): img = np.clip((img - 128) * 1.6 + 128, 0, 255); img - 128 wraps in uint8
    fun f => fmap (fun v => clipQ 0 255 ((C (v - 128)) * (16/10) + 128)) f,
    -- 5 (lines 128-129): img = np.clip(img + randint(-10, 10, shape), 0, 255)
    fun f => fmapIdx (fun i j k v => clipQ 0 255 (v + lib.randintC (-10) 10 i j k)) f,
    -- 6 (lines 132-134): bright_mask = img > 180; boost channels 1 and 2 where masked
    fun f =>
      let m := fun i j k => 180 < f.data i j k
      setChan 2 (fun i j v => if m i j 2 then clipQ 0 255 (v * (12/10)) else v)
        (setChan 1 (fun i j v => if m i j 1 then clipQ 0 255 (v * (12/10)) else v) f),
    -- 7 (lines 137-139): dark_mask = img < 80; boost channels 0 and 2 where masked
    fun f =>
      let m := fun i j k => f.data i j k < 80
      setChan 2 (fun i j v => if m i j 2 then clipQ 0 255 (v * (12/10)) else v)
        (setChan 0 (fun i j v => if m i j 0 then clipQ 0 255 (v * (13/10)) else v) f),
    -- 8 (line 142): img[::4, :, :] = img[::4, :, :] * 0.8
    fun f => fmapIdx (fun i _ _ v => if i % 4 = 0 then v * (8/10) else v) f,
    -- 9 (line 145): img = (img // 16) * 16  (float floor-divide)
    fun f => fmap (fun v => ((qfloor (v / 16) : ℤ) : ℚ) * 16) f,
    -- 10 (line 148): img = np.clip(img * 1.2, 0, 255)
    fun f => fmap (fun v => clipQ 0 255 (v * (12/10))) f,
    -- 11 (line 151): img[::8, ::8, :] = np.clip(img[::8, ::8, :] * 1.5, 0, 255)
    fun f => fmapIdx (fun i j _ v => if i % 8 = 0 ∧ j % 8 = 0 then
      clipQ 0 255 (v * (15/10)) else v) f,
    -- 12 (lines 154-156): sobel edge map of the channel mean, 90th percentile threshold
    fun f =>
      let e := lib.sobel (npMean2 f)
      let thr := lib.percentile e 90
      setChan 2 (fun i j v =>
        clipQ 0 255 (v + (if thr < e.data i j then (1 : ℚ) else 0) * 50)) f,
    -- 13 (line 159): img = np.clip(img * 1.1, 0, 255)
    fun f => fmap (fun v => clipQ 0 255 (v * (11/10))) f,
    -- 14 (lines 162-163): np.roll of channel 0 by +2 and channel 2 by -2 along axis 0
    fun f => chanRollRows 2 (-2) (chanRollRows 0 2 f),
    -- 15 (lines 166-168): pixelation img[::2, ::2] repeated 2x2 and cropped to [:h, :w]
    fun f => pixelate f,
    -- 16 (line 171): img[:, :, 2] = np.clip(img[:, :, 2] * 1.1, 0, 255)
    fun f => setChan 2 (fun _ _ v => clipQ 0 255 (v * (11/10))) f,
    -- 17 (lines 174-175): img = np.clip(img + sin(row * 0.1) * 5, 0, 255)
    fun f => fmapIdx (fun i _ _ v => clipQ 0 255 (v + lib.sinq ((i : ℚ) * (1/10)) * 5)) f,
    -- 18 (lines 178-181): corrupt_mask = random(shape) < 0.001; masked pixels get randint(0, 255)
    fun f => fmapIdx (fun i j k v =>
      if lib.randMask (1/1000) i j then lib.randintC 0 255 i j k else v) f,
    -- 19 (lines 184-187): circuit rows/cols every 20 at value 255; img + circuit * 0.1, clip
    fun f => fmapIdx (fun i j _ v =>
      clipQ 0 255 (v + (if i % 20 = 0 ∨ j % 20 = 0 then (255 : ℚ) else 0) * (1/10))) f,
    -- 20 (lines 190-195): 5-pixel border mask on channel 2, + 100, clip
    fun f => setChan 2 (fun i j v =>
      clipQ 0 255 (v + (if i < 5 ∨ f.h ≤ i + 5 ∨ j < 5 ∨ f.w ≤ j + 5 then (1 : ℚ) else 0) * 100)) f,
    -- 21 (line 198): img = np.clip(img * 0.95 + 15, 0, 255)
    fun f => fmap (fun v => clipQ 0 255 (v * (95/100) + 15)) f,
    -- 22 (line 201): img[:, :, 1] = np.clip(img[:, :, 1] * 1.05, 0, 255)
    fun f => setChan 1 (fun _ _ v => clipQ 0 255 (v * (105/100))) f,
    -- 23 (line 204): img = np.clip(img * 1.02, 0, 255)
    fun f => fmap (fun v => clipQ 0 255 (v * (102/100))) f,
    -- 24 (line 207): img[:, :, 2] = np.clip(img[:, :, 2] * 1.03, 0, 255)
    fun f => setChan 2 (fun _ _ v => clipQ 0 255 (v * (103/100))) f,
    -- 25 (lines 210-218): vignette ** 1.2 clipped to [0.4, 1]; channel 2 gets + (1 - v) * 20
    fun f =>
      setChan 2 (fun i j v => clipQ 0 255 (v + (1 - vignetteAt lib (12/10) (4/10) f.h f.w i j) * 20))
        (fmapIdx (fun i j _ v => v * vignetteAt lib (12/10) (4/10) f.h f.w i j) f) ]

/-- Variant 2, "Nature/Organic Style" (`variant.py` lines 220-312).
Steps 1-3 store in place into the `uint8` input array; step 4 rebinds to
the gaussian filter output, step 5 to a float array. -/
def v2Steps (C : ℚ → ℚ) (lib : NpLib) : List (Frame → Frame) :=
  [ v2s1 C,
    v2s2 C,
    v2s3 C,
    -- 4 (line 232): img = ndimage.gaussian_filter(img, sigma=1.2)
    fun f => lib.gaussian (12/10) f,
    -- 5 (line 235): img = np.clip(img * 0.9 + 10, 0, 255)
    fun f => fmap (fun v => clipQ 0 255 (v * (9/10) + 10)) f,
    -- 6 (lines 238-239): img = np.clip(img + normal(0, 3, shape), 0, 255)
    fun f => fmapIdx (fun i j k v => clipQ 0 255 (v + lib.normal 0 3 i j k)) f,
    -- 7 (lines 242-243): img = img * (1 + sin(row * 0.3) * 0.1)  (no clip)
    fun f => fmapIdx (fun i _ _ v => v * (1 + lib.sinq ((i : ℚ) * (3/10)) * (1/10))) f,
    -- 8 (line 246): img[:, :, 1] = np.clip(img[:, :, 1] * 1.2, 0, 255)
    fun f => setChan 1 (fun _ _ v => clipQ 0 255 (v * (12/10))) f,
    -- 9 (lines 249-250): img = np.clip(img + random(shape) * 5, 0, 255)
    fun f => fmapIdx (fun i j k v => clipQ 0 255 (v + lib.rand3 i j k * 5)) f,
    -- 10 (lines 253-254): sunlight = random(shape[:2]) < 0.1; masked pixels * 1.3, clip
    fun f => fmapIdx (fun i j _ v =>
      if lib.randMask (1/10) i j then clipQ 0 255 (v * (13/10)) else v) f,
    -- 11 (line 257): img = ndimage.median_filter(img, size=2)
    fun f => lib.medianF 2 f,
    -- 12 (line 260): img[:, :, 1] = np.clip(img[:, :, 1] * 1.1, 0, 255)
    fun f => setChan 1 (fun _ _ v => clipQ 0 255 (v * (11/10))) f,
    -- 13 (line 263): img = np.clip((img - 128) * 0.9 + 128, 0, 255)  (float, no wrap)
    fun f => fmap (fun v => clipQ 0 255 ((v - 128) * (9/10) + 128)) f,
    -- 14 (lines 266-267): img = np.clip(img + sin(col * 0.2) * 10, 0, 255)
    fun f => fmapIdx (fun _ j _ v => clipQ 0 255 (v + lib.sinq ((j : ℚ) * (2/10)) * 10)) f,
    -- 15 (lines 270-271): channel 0 * 1.05, channel 1 * 1.1, clipped, in place
    fun f => setChan 1 (fun _ _ v => clipQ 0 255 (v * (11/10)))
      (setChan 0 (fun _ _ v => clipQ 0 255 (v * (105/100))) f),
    -- 16 (line 274): img = ndimage.uniform_filter(img, size=2)
    fun f => lib.uniformF 2 f,
    -- 17 (line 277): img = np.clip(img * 1.05, 0, 255)
    fun f => fmap (fun v => clipQ 0 255 (v * (105/100))) f,
    -- 18 (lines 280-281): green_boost = (ch1 > ch0) & (ch1 > ch2); channel 1 * 1.2, clip
    fun f =>
      let gb := fun i j => f.data i j 0 < f.data i j 1 ∧ f.data i j 2 < f.data i j 1
      setChan 1 (fun i j v => if gb i j then clipQ 0 255 (v * (12/10)) else v) f,
    -- 19 (line 284): img = img * 0.98 + 5  (no clip)
    fun f => fmap (fun v => v * (98/100) + 5) f,
    -- 20 (lines 287-288): img = np.clip(img + normal(0, 2, shape), 0, 255)
    fun f => fmapIdx (fun i j k v => clipQ 0 255 (v + lib.normal 0 2 i j k)) f,
    -- 21 (line 291): img[:, :, 0] = np.clip(img[:, :, 0] * 1.02, 0, 255)
    fun f => setChan 0 (fun _ _ v => clipQ 0 255 (v * (102/100))) f,
    -- 22 (lines 294-295): channel 0 * 1.03, channel 1 * 1.02, clipped, in place
    fun f => setChan 1 (fun _ _ v => clipQ 0 255 (v * (102/100)))
      (setChan 0 (fun _ _ v => clipQ 0 255 (v * (103/100))) f),
    -- 23 (line 298): img = img * 0.99 + 3  (no clip)
    fun f => fmap (fun v => v * (99/100) + 3) f,
    -- 24 (line 301): img[:, :, 1] = np.clip(img[:, :, 1] * 1.01, 0, 255)
    fun f => setChan 1 (fun _ _ v => clipQ 0 255 (v * (101/100))) f,
    -- 25 (lines 304-312): vignette ** 1.3 clipped to [0.5, 1]; channel 1 gets + (1 - v) * 10
    fun f =>
      setChan 1 (fun i j v => clipQ 0 255 (v + (1 - vignetteAt lib (13/10) (5/10) f.h f.w i j) * 10))
        (fmapIdx (fun i j _ v => v * vignetteAt lib (13/10) (5/10) f.h f.w i j) f) ]

/-- Variant 3, "Fire/Energy Style" (`variant.py` lines 314-421).
Steps 1-3 store in place into the `uint8` input array; step 4 rebinds to
a float array; the smoke step 10 is the only later 8-bit cast before the
final `astype`. -/
def v3Steps (C : ℚ → ℚ) (lib : NpLib) : List (Frame → Frame) :=
  [ v3s1 C,
    v3s2 C,
    v3s3 C,
    -- 4 (line 326): img = np.clip(img * 1.3 - 30, 0, 255)
    fun f => fmap (fun v => clipQ 0 255 (v * (13/10) - 30)) f,
    -- 5 (lines 329-330): img = np.clip(img + sin(col * 0.5) * 2, 0, 255)
    fun f => fmapIdx (fun _ j _ v => clipQ 0 255 (v + lib.sinq ((j : ℚ) * (5/10)) * 2)) f,
    -- 6 (lines 333-335): embers = random(shape[:2]) < 0.005; ch0 := 255, ch1 := randint(100, 200)
    fun f =>
      let m := fun i j => lib.randMask (5/1000) i j
      setChan 1 (fun i j v => if m i j then lib.randintC 100 200 i j 1 else v)
        (setChan 0 (fun i j v => if m i j then 255 else v) f),
    -- 7 (lines 338-339): img = np.clip(img + sin(row * 0.8) * 5, 0, 255)
    fun f => fmapIdx (fun i _ _ v => clipQ 0 255 (v + lib.sinq ((i : ℚ) * (8/10)) * 5)) f,
    -- 8 (lines 342-343): channel 0 * 1.2, channel 1 * 1.1, clipped, in place
    fun f => setChan 1 (fun _ _ v => clipQ 0 255 (v * (11/10)))
      (setChan 0 (fun _ _ v => clipQ 0 255 (v * (12/10))) f),
    -- 9 (lines 346-347): hot_mask = ch0 > 150; channel 0 * 1.2 where masked, clip
    fun f => setChan 0 (fun _ _ v => if 150 < v then clipQ 0 255 (v * (12/10)) else v) f,
    -- 10 (lines 350-351): smoke = random(shape[:2]) < 0.02; (img * 0.7 + 50).astype(uint8)
    fun f => fmapIdx (fun i j _ v =>
      if lib.randMask (2/100) i j then C (v * (7/10) + 50) else v) f,
    -- 11 (lines 354-355): glow_mask = (ch0 > 100) & (ch1 > 50); channel 1 * 1.3, clip
    fun f =>
      let m := fun i j => 100 < f.data i j 0 ∧ 50 < f.data i j 1
      setChan 1 (fun i j v => if m i j then clipQ 0 255 (v * (13/10)) else v) f,
    -- 12 (lines 358-359): intensity = (ch0 + ch1) / 2; channel 0 + intensity * 0.1, clip
    fun f =>
      let inten := fun i j => (f.data i j 0 + f.data i j 1) / 2
      setChan 0 (fun i j v => clipQ 0 255 (v + inten i j * (1/10))) f,
    -- 13 (lines 362-363): molten_mask = ch0 > 200; channel 1 * 1.5 where masked, clip
    fun f =>
      let m := fun i j => 200 < f.data i j 0
      setChan 1 (fun i j v => if m i j then clipQ 0 255 (v * (15/10)) else v) f,
    -- 14 (lines 366-367): img = np.clip(img * normal(1, 0.05, shape), 0, 255)
    fun f => fmapIdx (fun i j k v => clipQ 0 255 (v * lib.normal 1 (5/100) i j k)) f,
    -- 15 (lines 370-371): thermal = linspace(0, 20, h); channel 0 + thermal, clip
    fun f => setChan 0 (fun i _ v =>
      clipQ 0 255 (v + (if f.h ≤ 1 then 0 else 20 * (i : ℚ) / ((f.h : ℚ) - 1)))) f,
    -- 16 (lines 374-376): sobel edge map of the channel mean, 85th percentile, ch0 + 40
    fun f =>
      let e := lib.sobel (npMean2 f)
      let thr := lib.percentile e 85
      setChan 0 (fun i j v =>
        clipQ 0 255 (v + (if thr < e.data i j then (1 : ℚ) else 0) * 40)) f,
    -- 17 (lines 379-380): channel 0 + sin(col * 0.3) * 15, clip
    fun f => setChan 0 (fun _ j v => clipQ 0 255 (v + lib.sinq ((j : ℚ) * (3/10)) * 15)) f,
    -- 18 (line 383): img = np.clip(img * 1.1, 0, 255)
    fun f => fmap (fun v => clipQ 0 255 (v * (11/10))) f,
    -- 19 (lines 386-387): dark_areas = mean(img, axis=2) < 80; channel 0 * 1.4, clip
    fun f =>
      let m := fun i j => (npMean2 f).data i j < 80
      setChan 0 (fun i j v => if m i j then clipQ 0 255 (v * (14/10)) else v) f,
    -- 20 (lines 390-392): distort_shift = int(sin(h * 0.1)); np.roll along axis 1 if nonzero
    fun f =>
      let s := npTrunc (lib.sinq ((f.h : ℚ) * (1/10)))
      if s = 0 then f else rollCols s f,
    -- 21 (lines 395-396): img = np.clip(img + normal(0, 8, shape), 0, 255)
    fun f => fmapIdx (fun i j k v => clipQ 0 255 (v + lib.normal 0 8 i j k)) f,
    -- 22 (lines 399-403): solar flare: channel 0 + exp(-dist(center h/3, w/3) / 50) * 30, clip
    fun f => setChan 0 (fun i j v =>
      clipQ 0 255 (v + lib.expq (-(lib.sqrtq (((j : ℚ) - ((f.w / 3 : ℕ) : ℚ)) ^ 2 +
        ((i : ℚ) - ((f.h / 3 : ℕ) : ℚ)) ^ 2)) / 50) * 30)) f,
    -- 23 (line 406): img[:, :, 0] = np.clip(img[:, :, 0] * 1.05, 0, 255)
    fun f => setChan 0 (fun _ _ v => clipQ 0 255 (v * (105/100))) f,
    -- 24 (line 409): img = np.clip(img * 1.02, 0, 255)
    fun f => fmap (fun v => clipQ 0 255 (v * (102/100))) f,
    -- 25 (lines 412-421): vignette ** 1.1 clipped to [0.4, 1]; channel 0 gets + (1 - v) * 30
    fun f =>
      setChan 0 (fun i j v => clipQ 0 255 (v + (1 - vignetteAt lib (11/10) (4/10) f.h f.w i j) * 30))
        (fmapIdx (fun i j _ v => v * vignetteAt lib (11/10) (4/10) f.h f.w i j) f) ]

/-- The pipeline selected by `effect_variant` (the if/elif chain of
`apply_video_effects`); an unrecognized id selects no steps. -/
def stepsFor (C : ℚ → ℚ) (lib : NpLib) (v : ℤ) : List (Frame → Frame) :=
  if v = 0 then v0Steps C lib
  else if v = 1 then v1Steps C lib
  else if v = 2 then v2Steps C lib
  else if v = 3 then v3Steps C lib
  else []

/-- The frame reaching the final `img.astype(np.uint8)` (line 423). -/
def preOutput (C : ℚ → ℚ) (lib : NpLib) (f : Frame) (v : ℤ) : Frame :=
  (stepsFor C lib v).foldl (fun a s => s a) f

/-- `apply_video_effects(img, effect_variant)` (lines 8-423): run the
selected pipeline, then `astype(np.uint8)`.  `C` is the 8-bit cast; the
behaviour of the program is `applyVideoEffects npU8`. -/
def applyVideoEffects (C : ℚ → ℚ) (lib : NpLib) (f : Frame) (v : ℤ) : Frame :=
  fmap C (preOutput C lib f v)

/-- The intermediate array after the first `n` numbered transformations
of the selected pipeline. -/
def intermediateState (C : ℚ → ℚ) (lib : NpLib) (v : ℤ) (n : ℕ) (f : Frame) : Frame :=
  ((stepsFor C lib v).take n).foldl (fun a s => s a) f

/-- The state of the array of the CALLER after `apply_video_effects(img, v)`
returns.  The first operation of variant 0 (`img = 255 - img`, line 14)
rebinds `img` to a fresh array, so the input array is untouched;
variants 1-3 execute their first three channel stores in place on the
input array (lines 116-122, 223-229, 317-323) before their step 4
rebinds; an unrecognized variant only runs `astype`, which copies. -/
def applyVideoEffectsInput (f : Frame) (v : ℤ) : Frame :=
  if v = 1 then v1s3 npU8 (v1s2 npU8 (v1s1 npU8 f))
  else if v = 2 then v2s3 npU8 (v2s2 npU8 (v2s1 npU8 f))
  else if v = 3 then v3s3 npU8 (v3s2 npU8 (v3s1 npU8 f))
  else f

/-- All in-bounds samples lie in the valid 8-bit range [0, 255]. -/
def InR (f : Frame) : Prop :=
  ∀ i < f.h, ∀ j < f.w, ∀ k < f.c, 0 ≤ f.data i j k ∧ f.data i j k ≤ 255

/-- All in-bounds samples lie in [0, 256), the range on which the
wrapping and the saturating 8-bit conversions agree. -/
def InR256 (f : Frame) : Prop :=
  ∀ i < f.h, ∀ j < f.w, ∀ k < f.c, 0 ≤ f.data i j k ∧ f.data i j k < 256

/-- All in-bounds samples lie in `[0, B]` (a generic bound used to push
interval information through the closing steps of each pipeline). -/
def InRB (B : ℚ) (f : Frame) : Prop :=
  ∀ i < f.h, ∀ j < f.w, ∀ k < f.c, 0 ≤ f.data i j k ∧ f.data i j k ≤ B

/-- A well-formed decoded frame as produced by `to_ndarray` with format `rgb24`:
three channels, every sample an integer in [0, 255]. -/
def FrameOk (f : Frame) : Prop :=
  f.c = 3 ∧ ∀ i < f.h, ∀ j < f.w, ∀ k < f.c,
    0 ≤ f.data i j k ∧ f.data i j k ≤ 255 ∧ (f.data i j k).den = 1

instance (f : Frame) : Decidable (FrameOk f) := by
  unfold FrameOk; infer_instance

instance (f : Frame) : Decidable (InR f) := by
  unfold InR; infer_instance

/- ----------------------------------------------------------------
Demux boundary (`demux_video_once`, lines 425-471).  The PyAV container
is modelled by the stream table it enumerates and the sequence of decode
events: `some fr` is a frame successfully decoded and converted,
`none` is an exception raised at that point of the decode loop.
---------------------------------------------------------------- -/

inductive StreamKind where
  | video
  | audio
  | other
deriving DecidableEq

/-- One entry of `container.streams` with the per-type fields the
program reads. -/
structure StreamInfo where
  kind : StreamKind
  width : ℕ
  height : ℕ
  rate : ℚ
  timeBase : ℚ
  channels : ℕ
  layout : ℕ

/-- The `video_info` dict (lines 440-445). -/
structure VideoMeta where
  width : ℕ
  height : ℕ
  rate : ℚ
  timeBase : ℚ
deriving DecidableEq

/-- The `audio_info` dict (lines 451-455). -/
structure AudioMeta where
  rate : ℚ
  channels : ℕ
  layout : ℕ
deriving DecidableEq

/-- A PyAV container: its stream table and its decode-event sequence. -/
structure Container where
  streams : List StreamInfo
  decodeEvents : List (Option Frame)

/-- The decode environment: `none` means `av.open` raises (missing or
corrupt file). -/
structure AvEnv where
  openResult : Option Container

/-- Accumulate the decode loop (lines 460-462): frames are appended
until the iterator is exhausted (`some` list) or an exception interrupts
it (`none`). -/
def collectFrames : List (Option Frame) → Option (List Frame)
  | [] => some []
  | none :: _ => none
  | some fr :: es => (collectFrames es).map (fr :: ·)

/-- The observable result of one `demux_video_once` run: the returned
triple plus whether `container.close()` was executed. -/
structure DemuxRun where
  frames : Option (List Frame)
  vmeta : Option VideoMeta
  ameta : Option AudioMeta
  closed : Bool

/-- `demux_video_once(input_file)` (lines 425-471): open the container,
take the metadata of the first video and first audio stream, decode all
frames eagerly, close, and return the triple; any exception inside the
`try` block is caught and the function returns `(None, None, None)`
without reaching `container.close()`. -/
def demuxVideoOnce (env : AvEnv) : DemuxRun :=
  match env.openResult with
  | none => ⟨none, none, none, false⟩
  | some c =>
    let vinfo := (c.streams.find? (fun s => s.kind = StreamKind.video)).map
      (fun s => VideoMeta.mk s.width s.height s.rate s.timeBase)
    let ainfo := (c.streams.find? (fun s => s.kind = StreamKind.audio)).map
      (fun s => AudioMeta.mk s.rate s.channels s.layout)
    match collectFrames c.decodeEvents with
    | none => ⟨none, none, none, false⟩
    | some fs => ⟨some fs, vinfo, ainfo, true⟩

/- ----------------------------------------------------------------
Render boundary (`process_all_frames`, lines 473-515).  The PyAV encode
container is modelled by an environment: whether the write-mode `av.open`
or the stream setup raises, the list of packets each per-frame
`encode` call yields (`none` = exception at that frame), and the
packets of the final flush.
---------------------------------------------------------------- -/

structure EncodeEnv where
  openOk : Bool
  encodePackets : ℕ → Frame → Option (List ℕ)
  flushPackets : Option (List ℕ)

/-- The frame loop of lines 490-503: process each frame with
`apply_video_effects`, encode it, and mux the yielded packets; the
returned flag is `false` when an encode exception interrupted the loop,
in which case the packets muxed so far remain in the file. -/
def encodeFrames (env : EncodeEnv) (lib : NpLib) (v : ℤ) : ℕ → List Frame → List ℕ × Bool
  | _, [] => ([], true)
  | n, fr :: fs =>
    match env.encodePackets n (applyVideoEffects npU8 lib fr v) with
    | none => ([], false)
    | some ps =>
      let rest := encodeFrames env lib v (n + 1) fs
      (ps ++ rest.1, rest.2)

/-- The observable outcome of one `process_all_frames` call:
`returnedNormally` is whether the call itself returned (rather than
raising past its boundary), `file` is the content written to the output
path (`none`: never created), `completed` whether the encode ran to the
final `close()`. -/
structure RenderOutcome where
  returnedNormally : Bool
  file : Option (List ℕ)
  completed : Bool

/-- `process_all_frames(all_frames, output_file, effect_variant,
thread_id)` (lines 473-515): the whole body sits in one `try`; the
`except` clause catches every exception and only prints, so the call
always returns normally and a failure leaves at most a partial file. -/
def processAllFramesRun (env : EncodeEnv) (lib : NpLib) (fs : List Frame)
    (v : ℤ) (_tid : ℕ) : RenderOutcome :=
  if env.openOk then
    let r := encodeFrames env lib v 0 fs
    if r.2 then
      match env.flushPackets with
      | none => ⟨true, some r.1, false⟩
      | some fp => ⟨true, some (r.1 ++ fp), true⟩
    else ⟨true, some r.1, false⟩
  else ⟨true, none, false⟩

/-- The content a fully successful run writes: the packets of every frame in
order followed by the flush packets. -/
def fullPackets (env : EncodeEnv) (lib : NpLib) (v : ℤ) : ℕ → List Frame → List ℕ
  | _, [] => env.flushPackets.getD []
  | n, fr :: fs =>
    (env.encodePackets n (applyVideoEffects npU8 lib fr v)).getD [] ++
      fullPackets env lib v (n + 1) fs

/-- The shared frame list after one renderer has run
(`process_all_frames` passes each stored frame straight to
`apply_video_effects` at line 492, without a copy). -/
def processAllFramesShared (fs : List Frame) (v : ℤ) : List Frame :=
  fs.map (fun f => applyVideoEffectsInput f v)

/- ----------------------------------------------------------------
Remux boundary (`mux_videos`, lines 517-557).  The environment gives,
for the pair at index `i`: whether `os.path.exists(processed_file)`
holds, whether `subprocess.run` returns (and with which exit code) or
raises, and whether the fallback `shutil.copy2` succeeds.
---------------------------------------------------------------- -/

structure MuxEnv where
  fileExists : ℕ → Bool
  runReturns : ℕ → Option ℤ
  copyOk : ℕ → Bool

/-- What one loop iteration of `mux_videos` did: whether the existence
check passed, whether the external tool was invoked, and whether the
fallback `shutil.copy2` was invoked. -/
structure MuxTrace where
  found : Bool
  toolRan : Bool
  copied : Bool
deriving DecidableEq

/-- One iteration of the `for` loop (lines 524-557): skip when the
rendered file is missing; run ffmpeg; on exit code 0 report success; on
a non-zero exit code invoke the verbatim copy fallback; an exception
anywhere (including from `subprocess.run` or the copy itself) is caught
by the per-iteration `except` and the loop continues. -/
def muxStep (env : MuxEnv) (i : ℕ) : MuxTrace :=
  if env.fileExists i then
    match env.runReturns i with
    | none => ⟨true, true, false⟩
    | some rc => if rc = 0 then ⟨true, true, false⟩ else ⟨true, true, true⟩
  else ⟨true, false, false⟩

/-- `mux_videos(processed_files, final_outputs)`: `zip` iterates over
the overlapping length of the two lists. -/
def muxVideos (env : MuxEnv) (processed finals : List ℕ) : List MuxTrace :=
  (List.range (min processed.length finals.length)).map (muxStep env)

/-- A tiny concrete decoded frame: one pixel with RGB value (0, 0, 10). -/
def fX : Frame := ⟨1, 1, 3, fun _ _ k => if k = 2 then 10 else 0⟩

/-- A one-pixel all-black frame. -/
def f0 : Frame := ⟨1, 1, 3, fun _ _ _ => 0⟩

/-- Claim C1 as stated: for every stored frame and every variant id in
{0,1,2,3}, rendering never alters the canonical frame — after a
renderer runs, every entry of the shared frame sequence is byte-for-byte
what demux produced. -/
def ClaimC1 : Prop :=
  ∀ (fs : List Frame) (v : ℤ), v ∈ ([0, 1, 2, 3] : List ℤ) →
    List.Forall₂ FrameEq (processAllFramesShared fs v) fs

/-- Claim C4 as stated: inside each of the four pipelines, no step
leaves samples outside [0, 255] before the next step runs, and no
intermediate value silently wraps mod 256 — equivalently, every
intermediate state is in range and is unchanged when the wrapping 8-bit
conversions are replaced by saturating ones. -/
def ClaimC4 : Prop :=
  ∀ (lib : NpLib) (v : ℤ), v ∈ ([0, 1, 2, 3] : List ℤ) → ∀ f : Frame, FrameOk f →
    ∀ n : ℕ, InR (intermediateState npU8 lib v n f) ∧
      FrameEq (intermediateState npU8 lib v n f) (intermediateState satU8 lib v n f)

/-- One pipeline step preserves the spatial dimensions, and either
preserves the channel count or forces it to 3 (the sepia matrix
product). -/
def ShapeOk3 (s : Frame → Frame) : Prop :=
  ∀ X : Frame, (s X).h = X.h ∧ (s X).w = X.w ∧ ((s X).c = X.c ∨ (s X).c = 3)

end SpeedMatters

namespace SpeedMatters

/-! Basic evaluation and bound lemmas. -/

theorem npU8_intCast (n : ℤ) : npU8 ((n : ℤ) : ℚ) = ((Int.emod n 256 : ℤ) : ℚ) := by
  unfold npU8 npTrunc
  rw [Rat.num_intCast, Rat.den_intCast]
  norm_num [Int.tdiv_one]

theorem satU8_intCast (n : ℤ) : satU8 ((n : ℤ) : ℚ) = ((max 0 (min 255 n) : ℤ) : ℚ) := by
  unfold satU8 npTrunc
  rw [Rat.num_intCast, Rat.den_intCast]
  norm_num [Int.tdiv_one]

theorem npU8_nonneg (x : ℚ) : 0 ≤ npU8 x := by
  unfold npU8
  exact_mod_cast Int.emod_nonneg _ (by norm_num)

theorem npU8_le (x : ℚ) : npU8 x ≤ 255 := by
  unfold npU8
  have h := Int.emod_lt_of_pos (npTrunc x) (b := 256) (by norm_num)
  exact_mod_cast Int.lt_add_one_iff.mp h

theorem clipQ_mem (lo hi x : ℚ) (h : lo ≤ hi) :
    lo ≤ clipQ lo hi x ∧ clipQ lo hi x ≤ hi := by
  unfold clipQ
  constructor
  · exact le_max_left _ _
  · exact max_le h (min_le_left _ _)

theorem FrameEq_refl (f : Frame) : FrameEq f f := ⟨rfl, rfl, rfl, fun _ _ _ _ _ _ => rfl⟩

theorem collectFrames_eq_none (es : List (Option Frame)) :
    collectFrames es = none ↔ none ∈ es := by
  induction es with
  | nil => simp [collectFrames]
  | cons e es ih =>
    cases e with
    | none => simp [collectFrames]
    | some fr =>
      simp only [collectFrames, List.mem_cons, reduceCtorEq, false_or]
      cases h : collectFrames es with
      | none => simpa [h] using ih.mp h
      | some l => simp [h, ← ih]

/-! Claim C3. -/

/-- C3: a valid container with zero streams yields the present-but-empty
triple `(some [], none, none)`, not the all-absent failure triple; the
zero-stream decode yields no frames (the behaviour the test suite of the repository assigns to the decode boundary in `test_empty_video_file`). -/
theorem claim_C3 (env : AvEnv) (c : Container)
    (hopen : env.openResult = some c) (hs : c.streams = [])
    (hd : c.decodeEvents = []) :
    (demuxVideoOnce env).frames = some [] ∧
      (demuxVideoOnce env).vmeta = none ∧
      (demuxVideoOnce env).ameta = none ∧
      (demuxVideoOnce env).frames ≠ (demuxVideoOnce ⟨none⟩).frames := by
  simp [demuxVideoOnce, hopen, hs, hd, collectFrames]

/-- Witness for C3 at the concrete empty container. -/
theorem claim_C3_witness :
    (demuxVideoOnce ⟨some ⟨[], []⟩⟩).frames = some [] ∧
      (demuxVideoOnce ⟨some ⟨[], []⟩⟩).vmeta = none ∧
      (demuxVideoOnce ⟨some ⟨[], []⟩⟩).ameta = none ∧
      (demuxVideoOnce ⟨some ⟨[], []⟩⟩).frames ≠ (demuxVideoOnce ⟨none⟩).frames :=
  claim_C3 ⟨some ⟨[], []⟩⟩ ⟨[], []⟩ rfl rfl rfl

/-! Claim C7. -/

/-- C7: every decode failure — `av.open` raising on a missing or corrupt
file, or an exception at any point of the decode loop, even after some
frames were accumulated — produces the all-absent triple; a partial
frame list is never returned. -/
theorem claim_C7 (env : AvEnv)
    (hfail : env.openResult = none ∨
      ∃ c, env.openResult = some c ∧ none ∈ c.decodeEvents) :
    (demuxVideoOnce env).frames = none ∧
      (demuxVideoOnce env).vmeta = none ∧
      (demuxVideoOnce env).ameta = none := by
  rcases hfail with h | ⟨c, hc, hmem⟩
  · simp [demuxVideoOnce, h]
  · have hcol : collectFrames c.decodeEvents = none := (collectFrames_eq_none _).mpr hmem
    simp [demuxVideoOnce, hc, hcol]

/-- Witness for C7: a decode exception after one frame was already
accumulated still yields the all-absent triple. -/
theorem claim_C7_witness :
    (demuxVideoOnce ⟨some ⟨[], [some fX, none]⟩⟩).frames = none ∧
      (demuxVideoOnce ⟨some ⟨[], [some fX, none]⟩⟩).vmeta = none ∧
      (demuxVideoOnce ⟨some ⟨[], [some fX, none]⟩⟩).ameta = none :=
  claim_C7 _ (Or.inr ⟨⟨[], [some fX, none]⟩, rfl, by simp⟩)

/-! Claim C10. -/

/-- C10 (implicit): `container.close()` runs exactly on the success
path; every failing run returns the all-absent triple without ever
closing the container. -/
theorem claim_C10 (env : AvEnv) :
    (demuxVideoOnce env).closed = true ↔ (demuxVideoOnce env).frames ≠ none := by
  cases h : env.openResult with
  | none => simp [demuxVideoOnce, h]
  | some c =>
    cases hc : collectFrames c.decodeEvents with
    | none => simp [demuxVideoOnce, h, hc]
    | some fs => simp [demuxVideoOnce, h, hc]

/-! Claim C9. -/

/-- C9: among the pairs processed by `mux_videos` whose rendered file
exists and whose tool invocation returns, the fallback verbatim copy is
invoked exactly when the exit status is non-zero. -/
theorem claim_C9 (env : MuxEnv) (processed finals : List ℕ) (i : ℕ) (rc : ℤ)
    (hi : i < min processed.length finals.length)
    (hex : env.fileExists i = true) (hrc : env.runReturns i = some rc) :
    ((muxVideos env processed finals).getD i ⟨false, false, false⟩).copied = true ↔
      rc ≠ 0 := by
  unfold muxVideos
  rw [List.getD_eq_getElem?_getD, List.getElem?_map, List.getElem?_range hi]
  by_cases h : rc = 0 <;> simp [muxStep, hex, hrc, h]

/-- Witness for C9: in a three-by-two batch whose middle invocation
fails, the fallback fires for that pair. -/
theorem claim_C9_witness :
    ((muxVideos ⟨fun _ => true, fun i => some (if i = 1 then 1 else 0), fun _ => true⟩
        [10, 11, 12] [20, 21]).getD 1 ⟨false, false, false⟩).copied = true ↔
      (1 : ℤ) ≠ 0 :=
  claim_C9 _ [10, 11, 12] [20, 21] 1 1 (by decide) rfl rfl

/-! Claim C8. -/

theorem encodeFrames_leads (env : EncodeEnv) (lib : NpLib) (v : ℤ) :
    ∀ (fs : List Frame) (n : ℕ), ∃ rest,
      (encodeFrames env lib v n fs).1 ++ rest = fullPackets env lib v n fs := by
  intro fs
  induction fs with
  | nil => exact fun n => ⟨env.flushPackets.getD [], by simp [encodeFrames, fullPackets]⟩
  | cons fr fs ih =>
    intro n
    cases h : env.encodePackets n (applyVideoEffects npU8 lib fr v) with
    | none =>
      exact ⟨fullPackets env lib v (n + 1) fs, by simp [encodeFrames, fullPackets, h]⟩
    | some ps =>
      obtain ⟨r, hr⟩ := ih (n + 1)
      exact ⟨r, by simp [encodeFrames, fullPackets, h, ← hr]⟩

theorem encodeFrames_complete (env : EncodeEnv) (lib : NpLib) (v : ℤ) :
    ∀ (fs : List Frame) (n : ℕ), (encodeFrames env lib v n fs).2 = true →
      (encodeFrames env lib v n fs).1 ++ env.flushPackets.getD [] =
        fullPackets env lib v n fs := by
  intro fs
  induction fs with
  | nil => intro n _; simp [encodeFrames, fullPackets]
  | cons fr fs ih =>
    intro n hok
    cases h : env.encodePackets n (applyVideoEffects npU8 lib fr v) with
    | none => simp [encodeFrames, h] at hok
    | some ps =>
      have hok2 : (encodeFrames env lib v (n + 1) fs).2 = true := by
        simpa [encodeFrames, h] using hok
      simp [encodeFrames, fullPackets, h, ← ih (n + 1) hok2]

/-- C8: `process_all_frames` always returns normally — every exception
raised while opening the output, encoding a frame or flushing is caught
inside the call — and the only observable effect of a failure is that
the target file is missing or an incomplete prefix of the full encode
output. -/
theorem claim_C8 (env : EncodeEnv) (lib : NpLib) (fs : List Frame) (v : ℤ) (tid : ℕ) :
    (processAllFramesRun env lib fs v tid).returnedNormally = true ∧
      ∀ content, (processAllFramesRun env lib fs v tid).file = some content →
        ∃ rest, content ++ rest = fullPackets env lib v 0 fs := by
  obtain ⟨rest, hrest⟩ := encodeFrames_leads env lib v fs 0
  by_cases ho : env.openOk
  · cases hb : (encodeFrames env lib v 0 fs).2 with
    | false =>
      simp only [processAllFramesRun, ho, hb, Bool.false_eq_true, if_false, if_true]
      refine ⟨trivial, fun content hc => ?_⟩
      obtain rfl := Option.some.inj hc
      exact ⟨rest, hrest⟩
    | true =>
      cases hf : env.flushPackets with
      | none =>
        simp only [processAllFramesRun, ho, hb, hf, if_true]
        refine ⟨trivial, fun content hc => ?_⟩
        obtain rfl := Option.some.inj hc
        exact ⟨rest, hrest⟩
      | some fp =>
        simp only [processAllFramesRun, ho, hb, hf, if_true]
        refine ⟨trivial, fun content hc => ?_⟩
        obtain rfl := Option.some.inj hc
        refine ⟨[], ?_⟩
        rw [List.append_nil]
        have h2 := encodeFrames_complete env lib v fs 0 hb
        rw [hf] at h2
        simpa using h2
  · simp [processAllFramesRun, ho]

/-! Claim C5. -/

theorem npU8_eq_self (x : ℚ) (hden : x.den = 1) (h0 : 0 ≤ x) (h1 : x ≤ 255) :
    npU8 x = x := by
  have hx : ((x.num : ℤ) : ℚ) = x := by
    conv_rhs => rw [← Rat.num_div_den x]
    rw [hden]
    norm_num
  have hn0 : 0 ≤ x.num := Rat.num_nonneg.mpr h0
  have hn1 : x.num < 256 := by
    have h2 : ((x.num : ℤ) : ℚ) ≤ 255 := by rw [hx]; exact h1
    have h3 : x.num ≤ 255 := by exact_mod_cast h2
    omega
  have hmod : Int.emod x.num 256 = x.num := by
    rw [show Int.emod x.num 256 = x.num % 256 from rfl]
    exact Int.emod_eq_of_lt hn0 hn1
  rw [← hx, npU8_intCast, hmod]

/-- C5: an unrecognized `effect_variant` outside {0,1,2,3} skips every
pipeline, so `apply_video_effects` returns only `img.astype(np.uint8)`,
which on a genuine 8-bit frame is the input, sample for sample. -/
theorem claim_C5 (lib : NpLib) (f : Frame) (v : ℤ)
    (hf : FrameOk f) (hv : v ∉ ([0, 1, 2, 3] : List ℤ)) :
    FrameEq (applyVideoEffects npU8 lib f v) f := by
  simp only [List.mem_cons, List.not_mem_nil, or_false, not_or] at hv
  obtain ⟨h0, h1, h2, h3⟩ := hv
  have hsteps : stepsFor npU8 lib v = [] := by
    unfold stepsFor
    rw [if_neg h0, if_neg h1, if_neg h2, if_neg h3]
  unfold applyVideoEffects preOutput
  rw [hsteps]
  simp only [List.foldl_nil]
  refine ⟨rfl, rfl, rfl, fun i hi j hj k hk => ?_⟩
  obtain ⟨hr0, hr255, hden⟩ := hf.2 i hi j hj k hk
  exact npU8_eq_self _ hden hr0 hr255

/-- Witness for C5 at variant id 7 and a concrete frame. -/
theorem claim_C5_witness : FrameEq (applyVideoEffects npU8 zeroLib fX 7) fX :=
  claim_C5 zeroLib fX 7 (by decide) (by decide)

/-! Claim C1. -/

theorem inputAfter_fX_v1 : (applyVideoEffectsInput fX 1).data 0 0 2 = 14 := by
  simp only [applyVideoEffectsInput, v1s1, v1s2, v1s3, setChan, fX]
  norm_num
  rw [show clipQ 0 255 (14 : ℚ) = 14 by unfold clipQ; norm_num]
  exact npU8_eq_self 14 (by decide) (by decide) (by decide)

theorem inputAfter_fX_v2 : (applyVideoEffectsInput fX 2).data 0 0 2 = 7 := by
  simp only [applyVideoEffectsInput, v2s1, v2s2, v2s3, setChan, fX]
  norm_num
  exact npU8_eq_self 7 (by decide) (by decide) (by decide)

theorem inputAfter_fX_v3 : (applyVideoEffectsInput fX 3).data 0 0 2 = 4 := by
  simp only [applyVideoEffectsInput, v3s1, v3s2, v3s3, setChan, fX]
  norm_num
  exact npU8_eq_self 4 (by decide) (by decide) (by decide)

/-- C1 fails on the code: with variant 1 the first channel store of
`apply_video_effects` writes through the shared reference, so the
canonical one-pixel frame (0, 0, 10) becomes (0, 0, 14). -/
theorem claim_C1_counterexample : ¬ ClaimC1 := by
  intro h
  have h1 := h [fX] 1 (by decide)
  rw [show processAllFramesShared [fX] 1 = [applyVideoEffectsInput fX 1] from rfl] at h1
  cases h1 with
  | cons hfe _ =>
    have hd := hfe.2.2.2 0 (by decide) 0 (by decide) 2 (by decide)
    rw [inputAfter_fX_v1] at hd
    simp [fX] at hd

/-- C1 amended: only variant 0 leaves the canonical frames unaltered
(its first operation `img = 255 - img` rebinds to a fresh array before
any in-place transform); for variants 1, 2 and 3 no copy is taken and
the first three channel operations mutate the shared frame in place. -/
theorem claim_C1_amended :
    (∀ fs : List Frame, List.Forall₂ FrameEq (processAllFramesShared fs 0) fs) ∧
    (∀ v ∈ ([1, 2, 3] : List ℤ), ∃ f : Frame,
      FrameOk f ∧ ¬ FrameEq (applyVideoEffectsInput f v) f) := by
  constructor
  · intro fs
    have hmap : processAllFramesShared fs 0 = fs := by
      simp [processAllFramesShared, applyVideoEffectsInput]
    rw [hmap]
    exact List.forall₂_same.mpr fun f _ => FrameEq_refl f
  · intro v hv
    fin_cases hv
    · refine ⟨fX, by decide, fun hfe => ?_⟩
      have hd := hfe.2.2.2 0 (by decide) 0 (by decide) 2 (by decide)
      rw [inputAfter_fX_v1] at hd
      simp [fX] at hd
    · refine ⟨fX, by decide, fun hfe => ?_⟩
      have hd := hfe.2.2.2 0 (by decide) 0 (by decide) 2 (by decide)
      rw [inputAfter_fX_v2] at hd
      simp [fX] at hd
    · refine ⟨fX, by decide, fun hfe => ?_⟩
      have hd := hfe.2.2.2 0 (by decide) 0 (by decide) 2 (by decide)
      rw [inputAfter_fX_v3] at hd
      simp [fX] at hd

/-- Witness for the amended C1 at a concrete frame list and variant. -/
theorem claim_C1_amended_witness :
    List.Forall₂ FrameEq (processAllFramesShared [fX] 0) [fX] ∧
      ∃ f : Frame, FrameOk f ∧ ¬ FrameEq (applyVideoEffectsInput f 1) f :=
  ⟨claim_C1_amended.1 [fX], claim_C1_amended.2 1 (by decide)⟩

/-! Interval lemmas for the closing steps of the pipelines. -/

theorem InRB_fmap (B : ℚ) (g : ℚ → ℚ) (X : Frame)
    (hg : ∀ v, 0 ≤ g v ∧ g v ≤ B) : InRB B (fmap g X) :=
  fun _ _ _ _ _ _ => hg _

theorem InRB_fmapIdx (B : ℚ) (g : ℕ → ℕ → ℕ → ℚ → ℚ) (X : Frame)
    (hg : ∀ i j k v, 0 ≤ g i j k v ∧ g i j k v ≤ B) : InRB B (fmapIdx g X) :=
  fun _ _ _ _ _ _ => hg _ _ _ _

theorem InRB_fmap_dep (B B2 : ℚ) (g : ℚ → ℚ) (X : Frame) (hX : InRB B X)
    (hg : ∀ v, 0 ≤ v → v ≤ B → 0 ≤ g v ∧ g v ≤ B2) : InRB B2 (fmap g X) := by
  intro i hi j hj k hk
  have hb := hX i hi j hj k hk
  exact hg _ hb.1 hb.2

theorem InRB_fmapIdx_dep (B B2 : ℚ) (g : ℕ → ℕ → ℕ → ℚ → ℚ) (X : Frame) (hX : InRB B X)
    (hg : ∀ i j k v, 0 ≤ v → v ≤ B → 0 ≤ g i j k v ∧ g i j k v ≤ B2) :
    InRB B2 (fmapIdx g X) := by
  intro i hi j hj k hk
  have hb := hX i hi j hj k hk
  exact hg _ _ _ _ hb.1 hb.2

theorem InRB_setChan (B : ℚ) (t : ℕ) (g : ℕ → ℕ → ℚ → ℚ) (X : Frame) (hX : InRB B X)
    (hg : ∀ i j v, 0 ≤ v → v ≤ B → 0 ≤ g i j v ∧ g i j v ≤ B) :
    InRB B (setChan t g X) := by
  intro i hi j hj k hk
  show 0 ≤ (if k = t then g i j (X.data i j t) else X.data i j k) ∧
    (if k = t then g i j (X.data i j t) else X.data i j k) ≤ B
  by_cases hkt : k = t
  · subst hkt
    have hb := hX i hi j hj k hk
    simp only [if_pos rfl]
    exact hg i j _ hb.1 hb.2
  · simp only [if_neg hkt]
    exact hX i hi j hj k hk

theorem InR256_of_InRB (B : ℚ) (X : Frame) (hB : B < 256) (h : InRB B X) : InR256 X :=
  fun i hi j hj k hk => ⟨(h i hi j hj k hk).1, lt_of_le_of_lt (h i hi j hj k hk).2 hB⟩

theorem clip255_mem (x : ℚ) : 0 ≤ clipQ 0 255 x ∧ clipQ 0 255 x ≤ 255 :=
  clipQ_mem 0 255 x (by norm_num)

theorem vignetteAt_mem (lib : NpLib) (ex lo : ℚ) (h w i j : ℕ)
    (h0 : 0 ≤ lo) (h1 : lo ≤ 1) :
    0 ≤ vignetteAt lib ex lo h w i j ∧ vignetteAt lib ex lo h w i j ≤ 1 := by
  have hm := clipQ_mem lo 1 (1 - lib.fpow (distRatio lib h w i j) ex) h1
  exact ⟨le_trans h0 hm.1, hm.2⟩

theorem mulBound (B v vg : ℚ) (h0 : 0 ≤ v) (hB : v ≤ B) (hv0 : 0 ≤ vg) (hv1 : vg ≤ 1) :
    0 ≤ v * vg ∧ v * vg ≤ B :=
  ⟨mul_nonneg h0 hv0, le_trans (mul_le_of_le_one_right h0 hv1) hB⟩

/-- Variant 0 ends with `np.clip(img * 1.01, 0, 255)` (line 101) followed
by the vignette multiplication, so whatever happened before, the frame
reaching the final cast is in [0, 255]. -/
theorem v0_pre_InR256 (C : ℚ → ℚ) (lib : NpLib) (f : Frame) :
    InR256 (preOutput C lib f 0) := by
  show InR256 ((v0Steps C lib).foldl (fun a s => s a) f)
  simp only [v0Steps, List.foldl_cons, List.foldl_nil]
  refine InR256_of_InRB 255 _ (by norm_num)
    (InRB_fmapIdx_dep 255 255 _ _ (InRB_fmap 255 _ _ fun v => clip255_mem _) ?_)
  intro i j k v h0 h255
  exact mulBound 255 v _ h0 h255
    (vignetteAt_mem lib _ _ _ _ i j (by norm_num) (by norm_num)).1
    (vignetteAt_mem lib _ _ _ _ i j (by norm_num) (by norm_num)).2

/-- Variant 1 ends with `np.clip(img * 1.02, 0, 255)` (line 204), a
clipped channel-2 store, the vignette multiplication and a clipped
channel-2 store, so the frame reaching the final cast is in [0, 255]. -/
theorem v1_pre_InR256 (C : ℚ → ℚ) (lib : NpLib) (f : Frame) :
    InR256 (preOutput C lib f 1) := by
  show InR256 ((v1Steps C lib).foldl (fun a s => s a) f)
  simp only [v1Steps, List.foldl_cons, List.foldl_nil]
  refine InR256_of_InRB 255 _ (by norm_num)
    (InRB_setChan 255 2 _ _
      (InRB_fmapIdx_dep 255 255 _ _
        (InRB_setChan 255 2 _ _ (InRB_fmap 255 _ _ fun v => clip255_mem _)
          fun i j v _ _ => clip255_mem _) ?_)
      fun i j v _ _ => clip255_mem _)
  intro i j k v h0 h255
  exact mulBound 255 v _ h0 h255
    (vignetteAt_mem lib _ _ _ _ i j (by norm_num) (by norm_num)).1
    (vignetteAt_mem lib _ _ _ _ i j (by norm_num) (by norm_num)).2

/-- Variant 2 ends with a clip at step 20 (line 287), clipped channel
stores, the un-clipped `img * 0.99 + 3` (line 298, bounded by 255.45),
a clipped channel-1 store and the vignette stage, so the frame reaching
the final cast is within [0, 255.45] ⊂ [0, 256). -/
theorem v2_pre_InR256 (C : ℚ → ℚ) (lib : NpLib) (f : Frame) :
    InR256 (preOutput C lib f 2) := by
  show InR256 ((v2Steps C lib).foldl (fun a s => s a) f)
  simp only [v2Steps, List.foldl_cons, List.foldl_nil]
  refine InR256_of_InRB (5109/20) _ (by norm_num)
    (InRB_setChan (5109/20) 1 _ _
      (InRB_fmapIdx_dep (5109/20) (5109/20) _ _
        (InRB_setChan (5109/20) 1 _ _
          (InRB_fmap_dep 255 (5109/20) _ _
            (InRB_setChan 255 1 _ _
              (InRB_setChan 255 0 _ _
                (InRB_setChan 255 0 _ _
                  (InRB_fmapIdx 255 _ _ fun i j k v => clip255_mem _)
                  fun i j v _ _ => clip255_mem _)
                fun i j v _ _ => clip255_mem _)
              fun i j v _ _ => clip255_mem _)
            ?_)
          fun i j v _ _ =>
            ⟨(clip255_mem _).1, le_trans (clip255_mem _).2 (by norm_num)⟩)
        ?_)
      fun i j v _ _ => ⟨(clip255_mem _).1, le_trans (clip255_mem _).2 (by norm_num)⟩)
  · intro v h0 h255
    constructor
    · nlinarith
    · nlinarith
  · intro i j k v h0 h255
    exact mulBound (5109/20) v _ h0 h255
      (vignetteAt_mem lib _ _ _ _ i j (by norm_num) (by norm_num)).1
      (vignetteAt_mem lib _ _ _ _ i j (by norm_num) (by norm_num)).2

/-- Variant 3 ends with `np.clip(img * 1.02, 0, 255)` (line 409)
followed by the vignette stage, so the frame reaching the final cast is
in [0, 255]. -/
theorem v3_pre_InR256 (C : ℚ → ℚ) (lib : NpLib) (f : Frame) :
    InR256 (preOutput C lib f 3) := by
  show InR256 ((v3Steps C lib).foldl (fun a s => s a) f)
  simp only [v3Steps, List.foldl_cons, List.foldl_nil]
  refine InR256_of_InRB 255 _ (by norm_num)
    (InRB_setChan 255 0 _ _
      (InRB_fmapIdx_dep 255 255 _ _ (InRB_fmap 255 _ _ fun v => clip255_mem _) ?_)
      fun i j v _ _ => clip255_mem _)
  intro i j k v h0 h255
  exact mulBound 255 v _ h0 h255
    (vignetteAt_mem lib _ _ _ _ i j (by norm_num) (by norm_num)).1
    (vignetteAt_mem lib _ _ _ _ i j (by norm_num) (by norm_num)).2

/-! Claim C4. -/

theorem npTrunc_eq_floor (x : ℚ) (h : 0 ≤ x) : npTrunc x = ⌊x⌋ := by
  unfold npTrunc
  rw [Rat.floor_def]
  exact Int.tdiv_eq_ediv (Rat.num_nonneg.mpr h) (by positivity)

theorem npU8_eq_satU8 (x : ℚ) (h0 : 0 ≤ x) (h1 : x < 256) : npU8 x = satU8 x := by
  unfold npU8 satU8
  rw [npTrunc_eq_floor x h0]
  have hf0 : 0 ≤ ⌊x⌋ := Int.floor_nonneg.mpr h0
  have hf1 : ⌊x⌋ < 256 := Int.floor_lt.mpr (by exact_mod_cast h1)
  congr 1
  rw [show Int.emod ⌊x⌋ 256 = ⌊x⌋ % 256 from rfl, Int.emod_eq_of_lt hf0 hf1]
  omega

theorem interm2_eval (C : ℚ → ℚ) :
    (intermediateState C zeroLib 0 2 f0).data 0 0 0 =
      C (clipQ 0 255 (C (C (255 - (0 : ℚ)) + 30))) := rfl

theorem interm2_npU8_val : (intermediateState npU8 zeroLib 0 2 f0).data 0 0 0 = 29 := by
  rw [interm2_eval npU8]
  rw [show (255 : ℚ) - 0 = 255 by norm_num]
  rw [npU8_eq_self 255 (by decide) (by decide) (by decide)]
  rw [show (255 : ℚ) + 30 = ((285 : ℤ) : ℚ) by norm_num]
  rw [npU8_intCast 285]
  rw [show Int.emod 285 256 = 29 from by decide]
  rw [show ((29 : ℤ) : ℚ) = 29 by norm_num]
  rw [show clipQ 0 255 (29 : ℚ) = 29 by unfold clipQ; norm_num]
  exact npU8_eq_self 29 (by decide) (by decide) (by decide)

theorem interm2_satU8_val : (intermediateState satU8 zeroLib 0 2 f0).data 0 0 0 = 255 := by
  rw [interm2_eval satU8]
  rw [show (255 : ℚ) - 0 = 255 by norm_num]
  rw [show (255 : ℚ) = ((255 : ℤ) : ℚ) by norm_num, satU8_intCast 255]
  rw [show (max 0 (min 255 (255 : ℤ)) : ℤ) = 255 from by decide]
  rw [show (((255 : ℤ) : ℚ) + 30) = ((285 : ℤ) : ℚ) by norm_num]
  rw [satU8_intCast 285]
  rw [show (max 0 (min 255 (285 : ℤ)) : ℤ) = 255 from by decide]
  rw [show clipQ 0 ((255 : ℤ) : ℚ) ((255 : ℤ) : ℚ) = ((255 : ℤ) : ℚ) by unfold clipQ; norm_num]
  rw [satU8_intCast 255]
  norm_num

/-- C4 fails on the code: the brightness step `np.clip(img + 30, 0, 255)`
(line 17) adds in `uint8`, so on a black pixel the inverted value 255
becomes (255 + 30) mod 256 = 29 before the clip ever runs — the wrapping
pipeline and the saturating pipeline disagree at step 2, i.e. an
intermediate value silently wrapped. -/
theorem claim_C4_counterexample : ¬ ClaimC4 := by
  intro h
  have h2 := (h zeroLib 0 (by decide) f0 (by decide) 2).2
  have hd := h2.2.2.2 0 (by decide) 0 (by decide) 0 (by decide)
  rw [interm2_npU8_val, interm2_satU8_val] at hd
  norm_num at hd

/-- C4 amended: clamping is not immediate after every overflow-capable
operation — the `uint8` scalar additions and subtractions (lines 17, 20,
67-68, 125) wrap mod 256 before their clip, and float steps such as the
vintage fade (line 75) or the leaf shadow (lines 241-243) can exceed 255
until a later clip — but the closing clipped steps of each pipeline bound the
frame reaching the final `astype(np.uint8)` inside [0, 256), so the
final 8-bit conversion itself never wraps: the returned frame equals the
one a saturating final conversion would produce. -/
theorem claim_C4_amended (lib : NpLib) (v : ℤ) (f : Frame)
    (hv : v ∈ ([0, 1, 2, 3] : List ℤ)) :
    InR256 (preOutput npU8 lib f v) ∧
      FrameEq (applyVideoEffects npU8 lib f v) (fmap satU8 (preOutput npU8 lib f v)) := by
  have h256 : InR256 (preOutput npU8 lib f v) := by
    fin_cases hv
    · exact v0_pre_InR256 npU8 lib f
    · exact v1_pre_InR256 npU8 lib f
    · exact v2_pre_InR256 npU8 lib f
    · exact v3_pre_InR256 npU8 lib f
  refine ⟨h256, rfl, rfl, rfl, fun i hi j hj k hk => ?_⟩
  have hb := h256 i hi j hj k hk
  exact npU8_eq_satU8 _ hb.1 hb.2

/-- Witness for the amended C4 at a concrete library, variant and frame. -/
theorem claim_C4_amended_witness :
    InR256 (preOutput npU8 zeroLib f0 0) ∧
      FrameEq (applyVideoEffects npU8 zeroLib f0 0) (fmap satU8 (preOutput npU8 zeroLib f0 0)) :=
  claim_C4_amended zeroLib 0 f0 (by decide)

/-! Claim C2.  Projection lemmas let the shape computations walk the
spine of a pipeline without opening the per-sample closures. -/

theorem fmap_h (g : ℚ → ℚ) (f : Frame) : (fmap g f).h = f.h := rfl

theorem fmap_w (g : ℚ → ℚ) (f : Frame) : (fmap g f).w = f.w := rfl

theorem fmap_c (g : ℚ → ℚ) (f : Frame) : (fmap g f).c = f.c := rfl

theorem fmapIdx_h (g : ℕ → ℕ → ℕ → ℚ → ℚ) (f : Frame) : (fmapIdx g f).h = f.h := rfl

theorem fmapIdx_w (g : ℕ → ℕ → ℕ → ℚ → ℚ) (f : Frame) : (fmapIdx g f).w = f.w := rfl

theorem fmapIdx_c (g : ℕ → ℕ → ℕ → ℚ → ℚ) (f : Frame) : (fmapIdx g f).c = f.c := rfl

theorem setChan_h (t : ℕ) (g : ℕ → ℕ → ℚ → ℚ) (f : Frame) : (setChan t g f).h = f.h := rfl

theorem setChan_w (t : ℕ) (g : ℕ → ℕ → ℚ → ℚ) (f : Frame) : (setChan t g f).w = f.w := rfl

theorem setChan_c (t : ℕ) (g : ℕ → ℕ → ℚ → ℚ) (f : Frame) : (setChan t g f).c = f.c := rfl

theorem chanRollCols_h (t : ℕ) (s : ℤ) (f : Frame) : (chanRollCols t s f).h = f.h := rfl

theorem chanRollCols_w (t : ℕ) (s : ℤ) (f : Frame) : (chanRollCols t s f).w = f.w := rfl

theorem chanRollCols_c (t : ℕ) (s : ℤ) (f : Frame) : (chanRollCols t s f).c = f.c := rfl

theorem chanRollRows_h (t : ℕ) (s : ℤ) (f : Frame) : (chanRollRows t s f).h = f.h := rfl

theorem chanRollRows_w (t : ℕ) (s : ℤ) (f : Frame) : (chanRollRows t s f).w = f.w := rfl

theorem chanRollRows_c (t : ℕ) (s : ℤ) (f : Frame) : (chanRollRows t s f).c = f.c := rfl

theorem rollCols_h (s : ℤ) (f : Frame) : (rollCols s f).h = f.h := rfl

theorem rollCols_w (s : ℤ) (f : Frame) : (rollCols s f).w = f.w := rfl

theorem rollCols_c (s : ℤ) (f : Frame) : (rollCols s f).c = f.c := rfl

theorem pixelate_h (f : Frame) : (pixelate f).h = min (2 * ((f.h + 1) / 2)) f.h := rfl

theorem pixelate_w (f : Frame) : (pixelate f).w = min (2 * ((f.w + 1) / 2)) f.w := rfl

theorem pixelate_c (f : Frame) : (pixelate f).c = f.c := rfl

theorem sepia3_h (C : ℚ → ℚ) (f : Frame) : (sepia3 C f).h = f.h := rfl

theorem sepia3_w (C : ℚ → ℚ) (f : Frame) : (sepia3 C f).w = f.w := rfl

theorem sepia3_c (C : ℚ → ℚ) (f : Frame) : (sepia3 C f).c = 3 := rfl

theorem v0Steps_shape (C : ℚ → ℚ) (lib : NpLib) : ∀ s ∈ v0Steps C lib, ShapeOk3 s := by
  intro s hs
  simp only [v0Steps, List.mem_cons, List.not_mem_nil, or_false] at hs
  rcases hs with rfl|rfl|rfl|rfl|rfl|rfl|rfl|rfl|rfl|rfl|rfl|rfl|rfl|rfl|rfl|rfl|rfl|rfl|rfl|rfl|rfl|rfl|rfl|rfl|rfl <;>
    intro X <;> refine ⟨?_, ?_, ?_⟩ <;>
    simp only [fmap_h, fmap_w, fmap_c, fmapIdx_h, fmapIdx_w, fmapIdx_c,
      setChan_h, setChan_w, setChan_c, chanRollCols_h, chanRollCols_w, chanRollCols_c,
      sepia3_h, sepia3_w, sepia3_c,
      lib.gaussian_h, lib.gaussian_w, lib.gaussian_c] <;>
    first | trivial | exact Or.inl trivial | exact Or.inr trivial

theorem v1Steps_shape (C : ℚ → ℚ) (lib : NpLib) : ∀ s ∈ v1Steps C lib, ShapeOk3 s := by
  intro s hs
  simp only [v1Steps, List.mem_cons, List.not_mem_nil, or_false] at hs
  rcases hs with rfl|rfl|rfl|rfl|rfl|rfl|rfl|rfl|rfl|rfl|rfl|rfl|rfl|rfl|rfl|rfl|rfl|rfl|rfl|rfl|rfl|rfl|rfl|rfl|rfl <;>
    intro X <;> refine ⟨?_, ?_, ?_⟩ <;>
    simp only [v1s1, v1s2, v1s3, fmap_h, fmap_w, fmap_c, fmapIdx_h, fmapIdx_w, fmapIdx_c,
      setChan_h, setChan_w, setChan_c, chanRollRows_h, chanRollRows_w, chanRollRows_c,
      pixelate_h, pixelate_w, pixelate_c] <;>
    first | trivial | omega | exact Or.inl trivial | exact Or.inr trivial

theorem v2Steps_shape (C : ℚ → ℚ) (lib : NpLib) : ∀ s ∈ v2Steps C lib, ShapeOk3 s := by
  intro s hs
  simp only [v2Steps, List.mem_cons, List.not_mem_nil, or_false] at hs
  rcases hs with rfl|rfl|rfl|rfl|rfl|rfl|rfl|rfl|rfl|rfl|rfl|rfl|rfl|rfl|rfl|rfl|rfl|rfl|rfl|rfl|rfl|rfl|rfl|rfl|rfl <;>
    intro X <;> refine ⟨?_, ?_, ?_⟩ <;>
    simp only [v2s1, v2s2, v2s3, fmap_h, fmap_w, fmap_c, fmapIdx_h, fmapIdx_w, fmapIdx_c,
      setChan_h, setChan_w, setChan_c,
      lib.gaussian_h, lib.gaussian_w, lib.gaussian_c,
      lib.median_h, lib.median_w, lib.median_c,
      lib.uniform_h, lib.uniform_w, lib.uniform_c] <;>
    first | trivial | exact Or.inl trivial | exact Or.inr trivial

theorem v3Steps_shape (C : ℚ → ℚ) (lib : NpLib) : ∀ s ∈ v3Steps C lib, ShapeOk3 s := by
  intro s hs
  simp only [v3Steps, List.mem_cons, List.not_mem_nil, or_false] at hs
  rcases hs with rfl|rfl|rfl|rfl|rfl|rfl|rfl|rfl|rfl|rfl|rfl|rfl|rfl|rfl|rfl|rfl|rfl|rfl|rfl|rfl|rfl|rfl|rfl|rfl|rfl <;>
    intro X <;> refine ⟨?_, ?_, ?_⟩ <;>
    simp only [v3s1, v3s2, v3s3, fmap_h, fmap_w, fmap_c, fmapIdx_h, fmapIdx_w, fmapIdx_c,
      setChan_h, setChan_w, setChan_c, rollCols_h, rollCols_w, rollCols_c,
      apply_ite Frame.h, apply_ite Frame.w, apply_ite Frame.c, ite_self] <;>
    first | trivial | exact Or.inl trivial | exact Or.inr trivial

theorem stepsFor_shape (C : ℚ → ℚ) (lib : NpLib) (v : ℤ) :
    ∀ s ∈ stepsFor C lib v, ShapeOk3 s := by
  intro s hs
  unfold stepsFor at hs
  split_ifs at hs
  · exact v0Steps_shape C lib s hs
  · exact v1Steps_shape C lib s hs
  · exact v2Steps_shape C lib s hs
  · exact v3Steps_shape C lib s hs
  · simp at hs

theorem foldl_shape3 (l : List (Frame → Frame)) (hl : ∀ s ∈ l, ShapeOk3 s) :
    ∀ f : Frame, (l.foldl (fun a s => s a) f).h = f.h ∧
      (l.foldl (fun a s => s a) f).w = f.w ∧
      ((l.foldl (fun a s => s a) f).c = f.c ∨ (l.foldl (fun a s => s a) f).c = 3) := by
  induction l with
  | nil => exact fun f => ⟨rfl, rfl, Or.inl rfl⟩
  | cons s l ih =>
    intro f
    simp only [List.foldl_cons]
    have hs := hl s (List.mem_cons_self _ _) f
    have hrest := ih (fun t ht => hl t (List.mem_cons_of_mem _ ht)) (s f)
    refine ⟨hrest.1.trans hs.1, hrest.2.1.trans hs.2.1, ?_⟩
    rcases hrest.2.2 with hc | hc
    · rcases hs.2.2 with hc2 | hc2
      · exact Or.inl (hc.trans hc2)
      · exact Or.inr (hc.trans hc2)
    · exact Or.inr hc

/-- C2: for every 3-channel 8-bit input frame and every variant id in
{0,1,2,3}, `apply_video_effects` returns a grid of the same height,
width and channel count, and the final `astype(np.uint8)` leaves every
sample in [0, 255]. -/
theorem claim_C2 (lib : NpLib) (f : Frame) (v : ℤ)
    (hf : FrameOk f) (_hv : v ∈ ([0, 1, 2, 3] : List ℤ)) :
    (applyVideoEffects npU8 lib f v).h = f.h ∧
      (applyVideoEffects npU8 lib f v).w = f.w ∧
      (applyVideoEffects npU8 lib f v).c = f.c ∧
      InR (applyVideoEffects npU8 lib f v) := by
  obtain ⟨h1, h2, h3⟩ := foldl_shape3 (stepsFor npU8 lib v) (stepsFor_shape npU8 lib v) f
  refine ⟨h1, h2, ?_, fun i _ j _ k _ => ⟨npU8_nonneg _, npU8_le _⟩⟩
  rcases h3 with hc | hc
  · exact hc
  · exact hc.trans hf.1.symm

/-- Witness for C8: a successful empty render produces exactly the flush
packets, a prefix of the full output. -/
theorem claim_C8_witness :
    (processAllFramesRun ⟨true, fun _ _ => some [1, 2], some [9]⟩ zeroLib [] 7 0).returnedNormally
        = true ∧
      ∀ content,
        (processAllFramesRun ⟨true, fun _ _ => some [1, 2], some [9]⟩ zeroLib [] 7 0).file =
          some content →
        ∃ rest, content ++ rest = fullPackets ⟨true, fun _ _ => some [1, 2], some [9]⟩ zeroLib 7 0 [] :=
  claim_C8 ⟨true, fun _ _ => some [1, 2], some [9]⟩ zeroLib [] 7 0

/-- Witness for C10 at a concrete failing environment. -/
theorem claim_C10_witness :
    (demuxVideoOnce ⟨none⟩).closed = true ↔ (demuxVideoOnce ⟨none⟩).frames ≠ none :=
  claim_C10 ⟨none⟩

/-- Witness for C2 at a concrete library, frame and variant. -/
theorem claim_C2_witness :
    (applyVideoEffects npU8 zeroLib fX 1).h = fX.h ∧
      (applyVideoEffects npU8 zeroLib fX 1).w = fX.w ∧
      (applyVideoEffects npU8 zeroLib fX 1).c = fX.c ∧
      InR (applyVideoEffects npU8 zeroLib fX 1) :=
  claim_C2 zeroLib fX 1 (by decide) (by decide)

end SpeedMatters
